import Mathlib

/-!
Shallow embedding of the MindVault / "forgot-me" backend (Python, FastAPI).

The definitions below are translated from the repository sources:

* `backend/main.py` — HTTP endpoint bodies (`scan_files`, `query_files`,
  `delete_memory`, the `/graph` similarity pass);
* `backend/agents/storage_agent.py` — the ingestion pipeline `ingest_file`;
* `backend/services/vector_store.py` — the ChromaDB-backed document store,
  modelled as an association list keyed by `doc_id` (ChromaDB guarantees
  unique ids; `upsert` replaces the record with the matching id);
* `backend/services/notif_service.py` — the SQLite event ledger, modelled as
  a list of rows in insertion order;
* `backend/services/llm_service.py` — external LLM calls are modelled as
  parameters (their structured outputs are inputs to the embedded pipeline),
  matching the spec's boundary: the analyzer is an external collaborator.

Machine floats of the similarity pass are modelled as exact real arithmetic;
Python `int`/`str` as `Nat`/`String`; SQLite `TEXT` comparison (`memcmp` on
UTF-8) as Lean's lexicographic `String` order, which agrees with byte order
on UTF-8. The `doc_id` derivation `hashlib.sha256(path.encode()).hexdigest()[:16]`
is embedded by a full SHA-256 implementation over UTF-8 bytes.
-/

namespace MindVault

/-! ## SHA-256 (for `doc_id = sha256(file_path.encode()).hexdigest()[:16]`,
storage_agent.py line 108). Words are `Nat` kept below `2^32`. -/

/-- The modulus 2^32 for 32-bit word arithmetic. -/
def M32 : Nat := 4294967296

/-- Right rotation of a 32-bit word. -/
def rotr (x n : Nat) : Nat := ((x >>> n) ||| (x <<< (32 - n))) % M32

/-- SHA-256 small sigma 0. -/
def ssig0 (x : Nat) : Nat := rotr x 7 ^^^ rotr x 18 ^^^ (x >>> 3)

/-- SHA-256 small sigma 1. -/
def ssig1 (x : Nat) : Nat := rotr x 17 ^^^ rotr x 19 ^^^ (x >>> 10)

/-- SHA-256 big sigma 0. -/
def bsig0 (x : Nat) : Nat := rotr x 2 ^^^ rotr x 13 ^^^ rotr x 22

/-- SHA-256 big sigma 1. -/
def bsig1 (x : Nat) : Nat := rotr x 6 ^^^ rotr x 11 ^^^ rotr x 25

/-- SHA-256 choose function. -/
def shaCh (e f g : Nat) : Nat := (e &&& f) ^^^ ((e ^^^ 4294967295) &&& g)

/-- SHA-256 majority function. -/
def shaMaj (a b c : Nat) : Nat := (a &&& b) ^^^ (a &&& c) ^^^ (b &&& c)

/-- The 64 SHA-256 round constants. -/
def shaK : List Nat :=
  [1116352408, 1899447441, 3049323471, 3921009573, 961987163,
   1508970993, 2453635748, 2870763221, 3624381080, 310598401,
   607225278, 1426881987, 1925078388, 2162078206, 2614888103,
   3248222580, 3835390401, 4022224774, 264347078, 604807628,
   770255983, 1249150122, 1555081692, 1996064986, 2554220882,
   2821834349, 2952996808, 3210313671, 3336571891, 3584528711,
   113926993, 338241895, 666307205, 773529912, 1294757372,
   1396182291, 1695183700, 1986661051, 2177026350, 2456956037,
   2730485921, 2820302411, 3259730800, 3345764771, 3516065817,
   3600352804, 4094571909, 275423344, 430227734, 506948616,
   659060556, 883997877, 958139571, 1322822218, 1537002063,
   1747873779, 1955562222, 2024104815, 2227730452, 2361852424,
   2428436474, 2756734187, 3204031479, 3329325298]

/-- The initial SHA-256 hash state. -/
def shaH0 : List Nat :=
  [1779033703, 3144134277, 1013904242, 2773480762,
   1359893119, 2600822924, 528734635, 1541459225]

/-- Element of a word list, defaulting to 0 (indices are always in range). -/
def wnth (ws : List Nat) (i : Nat) : Nat := ws.getD i 0

/-- Extend the 16-word block schedule by `fuel` further words. -/
def extendSchedule (ws : List Nat) : Nat → List Nat
  | 0 => ws
  | n + 1 =>
    let i := ws.length
    let w := (ssig1 (wnth ws (i - 2)) + wnth ws (i - 7) +
              ssig0 (wnth ws (i - 15)) + wnth ws (i - 16)) % M32
    extendSchedule (ws ++ [w]) n

/-- One SHA-256 compression round on the 8-word working state. -/
def shaRound (w k : Nat) (st : List Nat) : List Nat :=
  match st with
  | [a, b, c, d, e, f, g, h] =>
    let t1 := (h + bsig1 e + shaCh e f g + k + w) % M32
    let t2 := (bsig0 a + shaMaj a b c) % M32
    [(t1 + t2) % M32, a, b, c, (d + t1) % M32, e, f, g]
  | st => st

/-- Run the 64 compression rounds, consuming schedule and constants in step. -/
def shaRounds : List Nat → List Nat → List Nat → List Nat
  | w :: ws, k :: ks, st => shaRounds ws ks (shaRound w k st)
  | _, _, st => st

/-- Compress one 16-word block into the running hash state. -/
def shaCompress (hs block : List Nat) : List Nat :=
  let w := extendSchedule block 48
  let st := shaRounds w shaK hs
  List.zipWith (fun x y => (x + y) % M32) hs st

/-- Fold the compression over the 16-word blocks of the padded message
(`fuel` bounds the number of blocks; it is called with enough). -/
def shaBlocks : Nat → List Nat → List Nat → List Nat
  | 0, hs, _ => hs
  | n + 1, hs, ws => if ws.isEmpty then hs else
      shaBlocks n (shaCompress hs (ws.take 16)) (ws.drop 16)

/-- Big-endian byte decomposition of `x` into `n` bytes. -/
def beBytes (n x : Nat) : List Nat :=
  (List.range n).map fun i => (x >>> (8 * (n - 1 - i))) % 256

/-- SHA-256 padding: append `0x80`, zeros to 56 mod 64, and the 64-bit
big-endian bit length. -/
def shaPad (ms : List Nat) : List Nat :=
  let L := ms.length
  let k := (64 - ((L + 9) % 64)) % 64
  ms ++ [0x80] ++ List.replicate k 0 ++ beBytes 8 (8 * L)

/-- Pack big-endian bytes into 32-bit words, four at a time. -/
def bytesToWords : List Nat → List Nat
  | b0 :: b1 :: b2 :: b3 :: rest =>
    ((b0 <<< 24) + (b1 <<< 16) + (b2 <<< 8) + b3) :: bytesToWords rest
  | _ => []

/-- The SHA-256 digest of a byte sequence, as eight 32-bit words. -/
def sha256Words (ms : List Nat) : List Nat :=
  let ws := bytesToWords (shaPad ms)
  shaBlocks ws.length shaH0 ws

/-- Lower-case hexadecimal digit. -/
def hexDigit (n : Nat) : Char :=
  "0123456789abcdef".toList.getD n '0'

/-- Eight hex digits of a 32-bit word, most significant first. -/
def wordHex (w : Nat) : List Char :=
  (List.range 8).map fun i => hexDigit ((w >>> (4 * (7 - i))) % 16)

/-- The SHA-256 hex digest (64 lower-case hex characters) of a byte list. -/
def sha256Hex (ms : List Nat) : String :=
  String.mk ((sha256Words ms).map wordHex).flatten

/-- UTF-8 encoding of one character, as bytes. -/
def charUtf8 (c : Char) : List Nat :=
  let n := c.toNat
  if n < 0x80 then [n]
  else if n < 0x800 then [0xc0 + n / 64, 0x80 + n % 64]
  else if n < 0x10000 then
    [0xe0 + n / 4096, 0x80 + (n / 64) % 64, 0x80 + n % 64]
  else
    [0xf0 + n / 262144, 0x80 + (n / 4096) % 64, 0x80 + (n / 64) % 64,
     0x80 + n % 64]

/-- UTF-8 encoding of a string (Python `str.encode()`). -/
def utf8Encode (s : String) : List Nat :=
  (s.data.map charUtf8).flatten

/-- Document id derivation of `storage_agent.ingest_file`:
`hashlib.sha256(file_path.encode()).hexdigest()[:16]`. -/
def docIdOf (file_path : String) : String :=
  (sha256Hex (utf8Encode file_path)).take 16

/-! ## Paths and extensions (`os.path.splitext`, `os.path.basename`,
`str.lower`), used by `scan_files` (main.py) and `detect_modality`
(storage_agent.py). -/

/-- Index of the last occurrence of `c` seen so far (`acc` carries the latest
index, `i` the current position). -/
def lastIndexOfAux (c : Char) : List Char → Int → Int → Int
  | [], _, acc => acc
  | x :: xs, i, acc => lastIndexOfAux c xs (i + 1) (if x = c then i else acc)

/-- Index of the last occurrence of `c` in `cs`, or `-1` (Python `str.rfind`). -/
def lastIndexOf (cs : List Char) (c : Char) : Int := lastIndexOfAux c cs 0 (-1)

/-- The extension part of `os.path.splitext(path)[1]`: the suffix from the last
dot, provided that dot lies after the last slash and some non-dot character of
the base name precedes it (leading dots never start an extension). -/
def splitextExt (p : String) : String :=
  let cs := p.data
  let sep := lastIndexOf cs '/'
  let dot := lastIndexOf cs '.'
  if sep < dot then
    if ((cs.drop (sep + 1).toNat).take (dot - sep - 1).toNat).any (fun ch => ch ≠ '.') then
      String.mk (cs.drop dot.toNat)
    else ""
  else ""

/-- Python `os.path.basename`: everything after the last slash. -/
def pyBasename (p : String) : String :=
  String.mk (p.data.drop ((lastIndexOf p.data '/') + 1).toNat)

/-- Python `str.lower`, on the ASCII range (extensions are ASCII). -/
def pyLower (s : String) : String := s.map Char.toLower

/-- The module-level allowed-extension set of `main.py`. -/
def ALLOWED_EXTENSIONS : List String :=
  [".pdf", ".txt", ".md", ".jpg", ".jpeg", ".png", ".mp3", ".m4a", ".wav",
   ".docx", ".ics", ".eml"]

/-- The default of the `extensions` field of `ScanRequest` (schemas.py); a
request that omits the field gets this list from pydantic. -/
def scanRequestDefaultExtensions : List String :=
  [".pdf", ".txt", ".md", ".jpg", ".jpeg", ".png", ".mp3", ".m4a", ".wav",
   ".docx", ".ics", ".eml"]

/-- One entry of `ScanResponse.files` (schemas.py `ScannedFile`); size and
date are fixed defaults on the backend. -/
structure ScannedFile where
  file_path : String
  file_name : String
  extension : String
  size_bytes : Nat
  modified_date : String
deriving DecidableEq, Repr

/-- Response of `POST /scan` (schemas.py `ScanResponse`). -/
structure ScanResponse where
  files : List ScannedFile
  total : Nat
deriving DecidableEq, Repr

/-- The body of `scan_files` (main.py): an empty (or absent, after the
pydantic default) `extensions` list falls back to `ALLOWED_EXTENSIONS`
(`set(request.extensions) if request.extensions else ALLOWED_EXTENSIONS`);
each path whose lowercased `splitext` extension is allowed is kept. -/
def scan_files (file_paths : List String) (extensions : List String) : ScanResponse :=
  let allowed := if extensions.isEmpty then ALLOWED_EXTENSIONS else extensions
  let files := file_paths.filterMap fun p =>
    let ext := pyLower (splitextExt p)
    if allowed.contains ext then
      some (⟨p, pyBasename p, ext, 0, ""⟩ : ScannedFile)
    else none
  ⟨files, files.length⟩

/-- Model of `MODALITY_MAP` (storage_agent.py). -/
def MODALITY_MAP : List (String × String) :=
  [(".pdf", "pdf"), (".jpg", "image"), (".jpeg", "image"), (".png", "image"),
   (".mp3", "audio"), (".m4a", "audio"), (".wav", "audio"), (".txt", "text"),
   (".md", "text"), (".docx", "text"), (".eml", "text"), (".ics", "calendar")]

/-- Model of `detect_modality` (storage_agent.py): extension lookup defaulting to
"text". -/
def detect_modality (filename : String) : String :=
  ((MODALITY_MAP.find? fun kv => kv.1 == pyLower (splitextExt filename)).map Prod.snd).getD "text"

/-! ## Event ledger (notif_service.py). The SQLite `events` table is a list
of rows in insertion order; `id` and `created_at` are server-assigned and
play no role in any claim, so rows carry the five payload columns plus
`user_id`. `date` is `NULL`-able (`Option`); the SQL dedup comparison
`date IS ?` equates `NULL` with `NULL`, which is `Option` equality. -/

/-- The `DEFAULT_USER_ID` constant (notif_service.py / vector_store.py). -/
def DEFAULT_USER_ID : String := "default"

/-- One row of the `events` table. -/
structure EventRow where
  user_id : String
  title : String
  date : Option String
  description : String
  source_file : String
  source_path : String
deriving DecidableEq, Repr

/-- One candidate event dict produced by the analyzer; `store_events` reads
the keys with `.get` defaults, so each is optional. -/
structure CandidateEvent where
  title : Option String
  date : Option String
  description : Option String
deriving DecidableEq, Repr

/-- The dedup query of `store_events`: is there a row of this user with the
same `(title, date, source_path)` (SQL `date IS ?`, `NULL`-safe)? -/
def eventExists (db : List EventRow) (u t : String) (d : Option String)
    (sp : String) : Bool :=
  db.any fun r => r.user_id == u && r.title == t && r.date == d && r.source_path == sp

/-- The loop body of `store_events` (notif_service.py lines 84-112): per
candidate, read the dict fields with their defaults, skip when the dedup
query matches, otherwise insert; returns the new table and the count of
rows actually inserted. Webhook triggering after commit only performs HTTP
calls and never changes the table, so it is not part of the state. -/
def store_events (db : List EventRow) (events : List CandidateEvent)
    (source_file source_path user_id : String) : List EventRow × Nat :=
  match events with
  | [] => (db, 0)
  | e :: rest =>
    let title := e.title.getD "Untitled Event"
    if eventExists db user_id title e.date source_path then
      store_events db rest source_file source_path user_id
    else
      let row : EventRow :=
        ⟨user_id, title, e.date, e.description.getD "", source_file, source_path⟩
      let out := store_events (db ++ [row]) rest source_file source_path user_id
      (out.1, out.2 + 1)

/-- Model of `delete_events_by_source` (notif_service.py): delete the rows of one
user whose `source_path` matches; returns the remaining table and the SQL
`rowcount`. -/
def delete_events_by_source (db : List EventRow) (source_path user_id : String) :
    List EventRow × Nat :=
  let keep := db.filter fun r => !(r.source_path == source_path && r.user_id == user_id)
  (keep, db.length - keep.length)

/-- SQLite `TEXT` comparison (`memcmp` on UTF-8 bytes): strict
lexicographic order on code points, which agrees with byte order under
UTF-8. -/
def charListLt : List Char → List Char → Bool
  | [], [] => false
  | [], _ :: _ => true
  | _ :: _, [] => false
  | a :: as, b :: bs =>
    if a.toNat < b.toNat then true
    else if b.toNat < a.toNat then false
    else charListLt as bs

/-- SQLite `TEXT <` on strings. -/
def textLt (s t : String) : Bool := charListLt s.data t.data

/-- The SQL `WHERE` of `delete_past_events`: `user_id = ? AND date IS NOT
NULL AND date < ?`, where `<` is SQLite `TEXT` (byte-lexicographic)
comparison against `date.today().isoformat()`. -/
def pastEventMatch (r : EventRow) (today user_id : String) : Bool :=
  r.user_id == user_id &&
    (match r.date with
     | none => false
     | some d => textLt d today)

/-- Model of `delete_past_events` (notif_service.py lines 221-233): delete one user's
rows whose non-`NULL` date text compares lexicographically below today's ISO
date; returns the remaining table and the `rowcount`. `today` is the ambient
`date.today().isoformat()` value, passed as a parameter. -/
def delete_past_events (db : List EventRow) (today user_id : String) :
    List EventRow × Nat :=
  let keep := db.filter fun r => !(pastEventMatch r today user_id)
  (keep, db.length - keep.length)

/-! ## Date parsing (`_parse_event_datetime`, notif_service.py lines 58-64).
Used by `store_events` only for webhook timing, but it fixes what a
"parseable" event date is: `datetime.fromisoformat` on the string with `Z`
rewritten to `+00:00`, with the timezone then discarded. The parser below
follows CPython's strict ISO-8601 grammar: `YYYY-MM-DD`, optionally a single
separator character and `HH:MM[:SS[.fff|.ffffff]]`, optionally a UTC offset
`±HH:MM[:SS]`, all fields range-checked. -/

/-- A parsed (naive) Python datetime. -/
structure PyDateTime where
  year : Nat
  month : Nat
  day : Nat
  hour : Nat
  minute : Nat
  second : Nat
  microsecond : Nat
deriving DecidableEq, Repr

/-- Numeric value of a decimal digit character. -/
def digitVal? (c : Char) : Option Nat :=
  if c.isDigit then some (c.toNat - 48) else none

/-- Parse exactly two decimal digits. -/
def parse2 : List Char → Option (Nat × List Char)
  | a :: b :: rest =>
    match digitVal? a, digitVal? b with
    | some x, some y => some (10 * x + y, rest)
    | _, _ => none
  | _ => none

/-- Parse exactly four decimal digits. -/
def parse4 : List Char → Option (Nat × List Char)
  | a :: b :: c :: d :: rest =>
    match digitVal? a, digitVal? b, digitVal? c, digitVal? d with
    | some w, some x, some y, some z => some (1000 * w + 100 * x + 10 * y + z, rest)
    | _, _, _, _ => none
  | _ => none

/-- Value of a digit list read in base 10. -/
def digitsVal (ds : List Char) : Nat :=
  ds.foldl (fun acc c => 10 * acc + (c.toNat - 48)) 0

/-- Gregorian leap-year test. -/
def isLeapYear (y : Nat) : Bool := (y % 4 == 0 && y % 100 != 0) || y % 400 == 0

/-- Days in a month. -/
def daysInMonth (y m : Nat) : Nat :=
  if m = 2 then (if isLeapYear y then 29 else 28)
  else if m = 4 || m = 6 || m = 9 || m = 11 then 30
  else 31

/-- Fractional seconds: exactly three or six digits, as microseconds. -/
def parseFraction (cs : List Char) : Option (Nat × List Char) :=
  let ds := cs.takeWhile Char.isDigit
  if ds.length = 3 then some (digitsVal ds * 1000, cs.drop 3)
  else if ds.length = 6 then some (digitsVal ds, cs.drop 6)
  else none

/-- Validate a trailing UTC offset (`±HH:MM[:SS]`) or its absence; the parsed
offset is discarded because `_parse_event_datetime` strips `tzinfo`. -/
def parseTzTail (cs : List Char) : Bool :=
  match cs with
  | [] => true
  | s :: rest =>
    (s == '+' || s == '-') &&
      (match parse2 rest with
       | some (hh, ':' :: r1) =>
         (match parse2 r1 with
          | some (mm, r2) =>
            hh < 24 && mm < 60 &&
              (match r2 with
               | [] => true
               | ':' :: r3 =>
                 (match parse2 r3 with
                  | some (ss, r4) => ss < 60 && r4.isEmpty
                  | none => false)
               | _ => false)
          | none => false)
       | _ => false)

/-- Parse `HH:MM[:SS[.frac]]` plus an optional UTC offset. -/
def parseTime (cs : List Char) : Option (Nat × Nat × Nat × Nat) :=
  match parse2 cs with
  | some (hh, ':' :: r1) =>
    (match parse2 r1 with
     | some (mm, ':' :: r2) =>
       (match parse2 r2 with
        | some (ss, '.' :: r3) =>
          (match parseFraction r3 with
           | some (us, r4) =>
             if hh < 24 && mm < 60 && ss < 60 && parseTzTail r4 then
               some (hh, mm, ss, us)
             else none
           | none => none)
        | some (ss, r3) =>
          if hh < 24 && mm < 60 && ss < 60 && parseTzTail r3 then
            some (hh, mm, ss, 0)
          else none
        | none => none)
     | some (mm, r2) =>
       if hh < 24 && mm < 60 && parseTzTail r2 then some (hh, mm, 0, 0) else none
     | none => none)
  | _ => none

/-- Python `datetime.fromisoformat`: a mandatory `YYYY-MM-DD` date part with
range checks, optionally a one-character separator and a time part. -/
def pyFromIsoformat (s : String) : Option PyDateTime :=
  match parse4 s.data with
  | some (y, '-' :: r1) =>
    (match parse2 r1 with
     | some (m, '-' :: r2) =>
       (match parse2 r2 with
        | some (d, r3) =>
          if 1 ≤ y && y ≤ 9999 && 1 ≤ m && m ≤ 12 && 1 ≤ d && d ≤ daysInMonth y m then
            match r3 with
            | [] => some ⟨y, m, d, 0, 0, 0, 0⟩
            | _sep :: r4 =>
              (match parseTime r4 with
               | some (hh, mm, ss, us) => some ⟨y, m, d, hh, mm, ss, us⟩
               | none => none)
          else none
        | none => none)
     | _ => none)
  | _ => none

/-- Model of `_parse_event_datetime` (notif_service.py): `None` for a falsy (empty)
string, otherwise `fromisoformat` on the string with `Z` replaced by
`+00:00`, the timezone dropped; `None` on a parse error. -/
def parse_event_datetime (raw : String) : Option PyDateTime :=
  if raw = "" then none
  else pyFromIsoformat (raw.replace "Z" "+00:00")

/-! ## Vector store (vector_store.py). The ChromaDB collection is an
association list `doc_id ↦ record` (ChromaDB keeps ids unique). The record
carries the metadata dict written by `ingest_file` plus the embedded
document text (the description); the embedding vector itself only matters
to the graph pass, which is modelled separately on raw vectors. -/

/-- The metadata record stored per document (the dict built in
`storage_agent.ingest_file` lines 116-127). -/
structure StoredDoc where
  file_path : String
  file_name : String
  modality : String
  description : String
  category : String
  timestamp : String
  file_date : String
  has_events : Bool
  summary : String
  content_snippet : String
deriving DecidableEq, Repr

/-- The collection: `doc_id ↦ record`, unique ids. -/
abbrev VStore := List (String × StoredDoc)

/-- ChromaDB `collection.upsert` restricted to one id: replace the record
with the matching id in place, or append a new entry. -/
def upsertDoc : VStore → String → StoredDoc → VStore
  | [], id, d => [(id, d)]
  | (k, v) :: rest, id, d =>
    if k == id then (id, d) :: rest else (k, v) :: upsertDoc rest id d

/-- Model of `store_document` (vector_store.py lines 77-94): upsert by `doc_id`.
Embedding the description has no observable effect on the store's metadata
state, so it does not appear here. -/
def store_document (vs : VStore) (doc_id : String) (metadata : StoredDoc) : VStore :=
  upsertDoc vs doc_id metadata

/-- Model of `get_document` (vector_store.py): point lookup by id. Every record
written by `ingest_file` lacks a `user_id` key, so the user check
(`meta.get("user_id", DEFAULT_USER_ID) != user_id`) always passes for the
default user and is omitted. -/
def get_document (vs : VStore) (doc_id : String) : Option StoredDoc :=
  (vs.find? fun p => p.1 == doc_id).map Prod.snd

/-- Model of `delete_document` (vector_store.py): `False` without touching the store
when the id is absent, otherwise remove it and return `True`. -/
def delete_document (vs : VStore) (doc_id : String) : VStore × Bool :=
  if (get_document vs doc_id).isSome then
    (vs.filter fun p => !(p.1 == doc_id), true)
  else (vs, false)

/-! ## Ingestion (storage_agent.py `ingest_file`). The extractor and the
two LLM calls are external collaborators (spec §2, §4.2): the extracted
`content`, the parsed description dict and the parsed event dict are
parameters. Dict lookups with `.get` defaults become `Option.getD`. The
ambient `datetime.utcnow().isoformat()` is the `now` parameter. -/

/-- The dict returned by `llm_service.generate_description` after
`_parse_json`: arbitrary JSON keys, each possibly missing. -/
structure DescOutput where
  description : Option String
  category : Option String
  summary : Option String
deriving DecidableEq, Repr

/-- The dict returned by `llm_service.extract_events` after `_parse_json`. -/
structure EventsOutput where
  has_events : Option Bool
  events : Option (List CandidateEvent)
deriving DecidableEq, Repr

/-- The whole backend state the claims range over: the vector collection
and the SQLite `events` table. -/
structure BackendState where
  vstore : VStore
  events : List EventRow
deriving DecidableEq, Repr

/-- The `IngestResult` schema (schemas.py). -/
structure IngestResult where
  success : Bool
  file_path : String
  description : String
  category : String
  has_events : Bool
  error : String
deriving DecidableEq, Repr

/-- Python whitespace (`str.strip` / `str.isspace` character class). -/
def isPySpace (c : Char) : Bool :=
  c.toNat ∈ [9, 10, 11, 12, 13, 28, 29, 30, 31, 32, 133, 160, 0x1680,
    0x2000, 0x2001, 0x2002, 0x2003, 0x2004, 0x2005, 0x2006, 0x2007, 0x2008,
    0x2009, 0x200a, 0x2028, 0x2029, 0x202f, 0x205f, 0x3000]

/-- Python `not content.strip()`: every character is whitespace (including
the empty string). -/
def pyStripIsEmpty (s : String) : Bool := s.data.all isPySpace

/-- The closed category set (`valid_categories`, storage_agent.py line 98). -/
def valid_categories : List String :=
  ["work", "study", "personal", "medical", "finance", "other"]

/-- The description reported and stored by `ingest_file`:
`desc_result.get("description", f"File: {filename}")`. -/
def ingestDescription (filename : String) (desc : DescOutput) : String :=
  desc.description.getD ("File: " ++ filename)

/-- The category reported and stored by `ingest_file`:
`desc_result.get("category", "other")` coerced into the closed set. -/
def ingestCategory (desc : DescOutput) : String :=
  let category0 := desc.category.getD "other"
  if category0 ∈ valid_categories then category0 else "other"

/-- The metadata dict built in `ingest_file` lines 116-127. -/
def ingestMetadata (file_path filename content now : String)
    (desc : DescOutput) (evres : EventsOutput) : StoredDoc :=
  ⟨file_path, filename, detect_modality filename, ingestDescription filename desc,
   ingestCategory desc, now, now, evres.has_events.getD false,
   desc.summary.getD filename, content.take 1500⟩

/-- Step 7 of `ingest_file`: `if has_events and events:` store them. -/
def ingestNewEvents (db : List EventRow) (file_path filename : String)
    (evres : EventsOutput) : List EventRow :=
  if evres.has_events.getD false && !(evres.events.getD []).isEmpty then
    (store_events db (evres.events.getD []) filename file_path DEFAULT_USER_ID).1
  else db

/-- Model of `ingest_file` (storage_agent.py lines 56-149) given the extracted
content and the analyzer outputs: fail (storing nothing) when the content
strips to empty; otherwise validate the category against the closed set,
upsert the metadata record under `doc_id = sha256(file_path)[:16]`, and,
when events were found, insert them (deduplicated) into the ledger. -/
def ingest_file (st : BackendState) (file_path filename content now : String)
    (desc : DescOutput) (evres : EventsOutput) : BackendState × IngestResult :=
  if pyStripIsEmpty content then
    (st, ⟨false, file_path, "", "", false, "Could not extract any content from file"⟩)
  else
    (⟨store_document st.vstore (docIdOf file_path)
        (ingestMetadata file_path filename content now desc evres),
      ingestNewEvents st.events file_path filename evres⟩,
     ⟨true, file_path, ingestDescription filename desc, ingestCategory desc,
      evres.has_events.getD false, ""⟩)

/-- The `DeleteResponse` schema (schemas.py). -/
structure DeleteResponse where
  success : Bool
  message : String
deriving DecidableEq, Repr

/-- Model of `delete_memory` (main.py lines 349-369): look the document up, fail
softly when absent, delete it from the vector store, and cascade to the
default user's events by `source_path` — but only when the recorded
`file_path` is truthy (non-empty). -/
def delete_memory (st : BackendState) (doc_id : String) :
    BackendState × DeleteResponse :=
  match get_document st.vstore doc_id with
  | none => (st, ⟨false, "Document not found"⟩)
  | some doc =>
    let del := delete_document st.vstore doc_id
    if !del.2 then
      (⟨del.1, st.events⟩, ⟨false, "Failed to delete from vector store"⟩)
    else
      let ev' :=
        if doc.file_path ≠ "" then
          (delete_events_by_source st.events doc.file_path DEFAULT_USER_ID).1
        else st.events
      (⟨del.1, ev'⟩, ⟨true, "Deleted " ++ doc.file_name⟩)

/-! ## Query pipeline (main.py `query_files`). `query_documents` returns
each hit's metadata annotated with its distance (always present) and id;
the LLM answer and its verification verdict are external parameters. -/

/-- One retrieved document as `query_files` consumes it: the metadata dict
fields read via `.get` plus the annotated cosine distance. -/
structure QueryDoc where
  distance : ℚ
  file_name : String
  file_path : String
  description : String
  category : String
  modality : String
  doc_id : String
  thumbnail : String
  content_snippet : String
deriving DecidableEq, Repr

/-- The `SourceFile` schema (schemas.py). -/
structure SourceFile where
  file_name : String
  file_path : String
  description : String
  category : String
  modality : String
  doc_id : String
  thumbnail : String
  content_snippet : String
deriving DecidableEq, Repr

/-- The `QueryResponse` schema (schemas.py). -/
structure QueryResponse where
  answer : String
  sources : List SourceFile
  verified : Bool
deriving DecidableEq, Repr

/-- The `SourceFile` built from one retained document (main.py lines
210-221). -/
def toSourceFile (d : QueryDoc) : SourceFile :=
  ⟨d.file_name, d.file_path, d.description, d.category, d.modality,
   d.doc_id, d.thumbnail, d.content_snippet⟩

/-- The answer returned with zero indexed documents (main.py line 180). -/
def emptyStoreAnswer : String :=
  "I couldn't find relevant information in your files. Try ingesting some files first."

/-- The answer returned when the best distance exceeds the ceiling (main.py
line 193). -/
def notRelevantAnswer : String :=
  "I couldn't find relevant information in your files."

/-- The caveat appended to an unverified answer (main.py line 238). -/
def verifyCaveat : String :=
  "\n\n⚠️ Note: This answer may not be fully grounded in your files. Please verify the information."

/-- Model of `docs[0].get("distance", 2.0)`: the first result's distance, defaulting
to 2 on an empty list. -/
def headDistance (docs : List QueryDoc) : ℚ :=
  match docs with
  | [] => 2
  | d :: _ => d.distance

/-- Model of `query_files` (main.py lines 169-240) given the retrieved documents and
the LLM's answer/verification: empty store → fixed answer, verified, no
sources; best distance above the 1.5 ceiling → fixed answer, verified, no
sources; otherwise retain the documents within 0.25 of the best distance as
sources and return the (possibly caveated) LLM answer. -/
def query_files (docs : List QueryDoc) (llmAnswer : String) (llmVerified : Bool) :
    QueryResponse :=
  match docs with
  | [] => ⟨emptyStoreAnswer, [], true⟩
  | d0 :: rest =>
    let best := d0.distance
    if 3 / 2 < best then ⟨notRelevantAnswer, [], true⟩
    else
      let relevant := (d0 :: rest).filter fun d => d.distance ≤ best + 1 / 4
      let sources := relevant.map toSourceFile
      let answer := if llmVerified then llmAnswer else llmAnswer ++ verifyCaveat
      ⟨answer, sources, llmVerified⟩

/-! ## Graph similarity pass (main.py `get_graph`, lines 437-462). For each
unordered pair of documents with embeddings, the code computes
`np.dot(a, b) / (np.linalg.norm(a) * np.linalg.norm(b) + 1e-9)` and emits a
"similar" edge with weight `round(sim, 3)` when the quotient exceeds 0.7.
Embedding vectors are lists of rationals (floats are exact rationals); the
float arithmetic is modelled as exact real arithmetic, so the square roots
of the norms live in `ℝ`. -/

/-- Dot product of two embedding vectors (`np.dot`). -/
def dotQ (a b : List ℚ) : ℚ := (List.zipWith (· * ·) a b).sum

/-- Euclidean norm of an embedding (`np.linalg.norm`). -/
noncomputable def npNorm (v : List ℚ) : ℝ := Real.sqrt ((dotQ v v : ℚ) : ℝ)

/-- The similarity the code computes per pair: the cosine numerator over the
norm product damped by the additive `1e-9` guard against zero division. -/
noncomputable def sim_score (a b : List ℚ) : ℝ :=
  ((dotQ a b : ℚ) : ℝ) / (npNorm a * npNorm b + 1 / 10 ^ 9)

/-- True cosine similarity, as the spec uses the term (glossary: "angular
similarity measure between two embeddings"). Stated from the spec's words to
compare the code's `sim_score` against; not part of the code. -/
noncomputable def cosine_similarity (a b : List ℚ) : ℝ :=
  ((dotQ a b : ℚ) : ℝ) / (npNorm a * npNorm b)

/-- The emission condition `if sim > 0.7` of the similar-edge loop. -/
def emits_similar_edge (a b : List ℚ) : Prop := 7 / 10 < sim_score a b

/-- Python's `round` to an integer: nearest, ties to even. -/
noncomputable def pyRoundInt (x : ℝ) : ℤ :=
  if Int.fract x < 1 / 2 then ⌊x⌋
  else if 1 / 2 < Int.fract x then ⌈x⌉
  else if Even ⌊x⌋ then ⌊x⌋ else ⌈x⌉

/-- The emitted edge's weight, `round(sim, 3)`. -/
noncomputable def similar_edge_weight (a b : List ℚ) : ℝ :=
  (pyRoundInt (sim_score a b * 1000) : ℝ) / 1000

/-! ## Derived notions and concrete fixtures used by the verification
theorems. -/

/-- Number of records under one id. -/
def keyCount (vs : VStore) (id : String) : Nat :=
  (vs.filter fun p => p.1 == id).length

/-- Well-formedness of the collection: ids are unique (ChromaDB maintains
this). -/
def keysNodup (vs : VStore) : Prop := (vs.map Prod.fst).Nodup

/-- The event-table dedup invariant of the spec: within one user partition
no two rows share the `(title, date, source_path)` triple. -/
def NoDupEventTriples (db : List EventRow) : Prop :=
  db.Pairwise fun r s => r.user_id = s.user_id →
    ¬(r.title = s.title ∧ r.date = s.date ∧ r.source_path = s.source_path)

/-- Retrieval fixture: the spec's `[0.2, 0.3, 0.5]` distance example. -/
def docsA : List QueryDoc :=
  [⟨1/5, "a", "/a", "da", "other", "text", "i1", "", ""⟩,
   ⟨3/10, "b", "/b", "db", "other", "text", "i2", "", ""⟩,
   ⟨1/2, "c", "/c", "dc", "other", "text", "i3", "", ""⟩]

/-- Retrieval fixture: the spec's `[0.05, 0.05, 0.05]` distance example. -/
def docsB : List QueryDoc :=
  [⟨1/20, "a", "/a", "da", "other", "text", "j1", "", ""⟩,
   ⟨1/20, "b", "/b", "db", "other", "text", "j2", "", ""⟩,
   ⟨1/20, "c", "/c", "dc", "other", "text", "j3", "", ""⟩]

/-- Deletion fixture: one stored document at path `/f`. -/
def docW : StoredDoc :=
  ⟨"/f", "f.txt", "text", "desc", "other", "T0", "T0", true, "s", "c"⟩

/-- Deletion fixture: an event of the default user produced by `/f`. -/
def rowF : EventRow := ⟨"default", "Pay rent", some "2020-01-01", "", "f.txt", "/f"⟩

/-- Deletion fixture: the same event under another user's partition. -/
def rowOther : EventRow := ⟨"alice", "Pay rent", some "2020-01-01", "", "f.txt", "/f"⟩

/-- Deletion fixture: a full backend state. -/
def stW : BackendState := ⟨[("d1", docW)], [rowOther, rowF]⟩

/-- A state reached through the real ingestion pipeline with an empty
`file_path` (the `/ingest` API accepts one): it holds the document stored
under `sha256("")[:16]` with `file_path = ""` and one event whose
`source_path` is `""`. -/
def c5state : BackendState :=
  (ingest_file ⟨[], []⟩ "" "notes.txt" "see you at standup" "T0"
    ⟨none, none, none⟩ ⟨some true, some [⟨some "Standup", some "2099-01-01", none⟩]⟩).1

/-- Cleanup fixture: a past-dated event of the default user. -/
def pastRow : EventRow := ⟨"default", "Old", some "2020-01-01", "", "f", "/f"⟩

/-- Cleanup fixture: a future-dated event of the default user. -/
def futureRow : EventRow := ⟨"default", "New", some "2099-01-01", "", "f", "/f"⟩

/-- Cleanup fixture: an undated event of the default user. -/
def undatedRow : EventRow := ⟨"default", "Sometime", none, "", "f", "/f"⟩

/-- Cleanup fixture: the whole table. -/
def dbW : List EventRow := [pastRow, futureRow, undatedRow]

/-! ## Helper lemmas. -/

/-- Looking up the id just upserted yields the new record (vector_store
`get` after `store`). -/
theorem get_document_upsert (vs : VStore) (id : String) (d : StoredDoc) :
    get_document (upsertDoc vs id d) id = some d := by
  induction vs with
  | nil => simp [upsertDoc, get_document]
  | cons kv rest ih =>
    by_cases hk : kv.1 == id
    · simp [upsertDoc, hk, get_document]
    · simpa [upsertDoc, hk, get_document] using ih

/-- The count `keyCount` is the multiplicity of the id among the keys. -/
theorem keyCount_eq_count (vs : VStore) (id : String) :
    keyCount vs id = (vs.map Prod.fst).count id := by
  rw [keyCount, ← List.countP_eq_length_filter, List.count, List.countP_map]
  rfl

/-- The upserted id is among the keys afterwards. -/
theorem id_mem_keys_upsert (vs : VStore) (id : String) (d : StoredDoc) :
    id ∈ (upsertDoc vs id d).map Prod.fst := by
  induction vs with
  | nil => simp [upsertDoc]
  | cons kv rest ih =>
    simp only [upsertDoc]
    by_cases hk : (kv.1 == id) = true
    · rw [if_pos hk]
      simp
    · rw [if_neg hk]
      simp only [List.map_cons, List.mem_cons]
      exact Or.inr ih

/-- Keys after an upsert come from the new id or the old keys. -/
theorem mem_keys_upsert (vs : VStore) (id x : String) (d : StoredDoc)
    (h : x ∈ (upsertDoc vs id d).map Prod.fst) :
    x = id ∨ x ∈ vs.map Prod.fst := by
  induction vs with
  | nil => simpa [upsertDoc] using h
  | cons kv rest ih =>
    simp only [upsertDoc] at h
    by_cases hk : (kv.1 == id) = true
    · rw [if_pos hk] at h
      simp only [List.map_cons, List.mem_cons] at h ⊢
      tauto
    · rw [if_neg hk] at h
      simp only [List.map_cons, List.mem_cons] at h ⊢
      rcases h with h1 | h1
      · tauto
      · rcases ih h1 with h' | h' <;> tauto

/-- Upserting preserves key uniqueness. -/
theorem keysNodup_upsert (vs : VStore) (id : String) (d : StoredDoc)
    (h : keysNodup vs) : keysNodup (upsertDoc vs id d) := by
  induction vs with
  | nil => simp [upsertDoc, keysNodup]
  | cons kv rest ih =>
    simp only [keysNodup, List.map_cons, List.nodup_cons] at h
    simp only [keysNodup, upsertDoc]
    by_cases hk : (kv.1 == id) = true
    · have hkeq : kv.1 = id := by simpa [beq_iff_eq] using hk
      rw [if_pos hk, List.map_cons, List.nodup_cons]
      exact ⟨hkeq ▸ h.1, h.2⟩
    · have hkne : kv.1 ≠ id := by simpa [beq_iff_eq] using hk
      rw [if_neg hk, List.map_cons, List.nodup_cons]
      refine ⟨?_, ih h.2⟩
      intro hmem
      rcases mem_keys_upsert rest id kv.1 d hmem with h' | h'
      · exact hkne h'
      · exact h.1 h'

/-- Upserting into a duplicate-free collection leaves exactly one record
under the id. -/
theorem keyCount_upsert (vs : VStore) (id : String) (d : StoredDoc)
    (h : keysNodup vs) : keyCount (upsertDoc vs id d) id = 1 := by
  rw [keyCount_eq_count]
  exact List.count_eq_one_of_mem (keysNodup_upsert vs id d h)
    (id_mem_keys_upsert vs id d)

/-- A positive dedup hit survives appending rows. -/
theorem eventExists_append (db l : List EventRow) (u t : String)
    (d : Option String) (sp : String) (h : eventExists db u t d sp = true) :
    eventExists (db ++ l) u t d sp = true := by
  simp only [eventExists, List.any_append, Bool.or_eq_true]
  exact Or.inl h

/-- The table grows monotonically: `store_events` only appends rows. -/
theorem store_events_fst_append (db : List EventRow) (evs : List CandidateEvent)
    (sf sp u : String) :
    ∃ tail, (store_events db evs sf sp u).1 = db ++ tail := by
  induction evs generalizing db with
  | nil => exact ⟨[], by simp [store_events]⟩
  | cons e rest ih =>
    by_cases h : eventExists db u (e.title.getD "Untitled Event") e.date sp
    · simpa [store_events, h] using ih db
    · obtain ⟨tail, ht⟩ := ih
        (db ++ [⟨u, e.title.getD "Untitled Event", e.date, e.description.getD "", sf, sp⟩])
      refine ⟨⟨u, e.title.getD "Untitled Event", e.date, e.description.getD "", sf, sp⟩ :: tail, ?_⟩
      simp [store_events, h, ht]

/-- When every candidate already has a dedup hit, `store_events` inserts
nothing and reports zero. -/
theorem store_events_of_all_exist (db : List EventRow) (evs : List CandidateEvent)
    (sf sp u : String)
    (h : ∀ e ∈ evs, eventExists db u (e.title.getD "Untitled Event") e.date sp = true) :
    store_events db evs sf sp u = (db, 0) := by
  induction evs with
  | nil => rfl
  | cons e rest ih =>
    have he := h e (by simp)
    simp only [store_events, he, if_true]
    exact ih fun e' he' => h e' (by simp [he'])

/-- After `store_events`, every offered candidate has a dedup hit in the
resulting table. -/
theorem store_events_exist_after (db : List EventRow) (evs : List CandidateEvent)
    (sf sp u : String) :
    ∀ e ∈ evs,
      eventExists (store_events db evs sf sp u).1 u
        (e.title.getD "Untitled Event") e.date sp = true := by
  induction evs generalizing db with
  | nil => intro e he; cases he
  | cons e0 rest ih =>
    intro e he
    by_cases h0 : eventExists db u (e0.title.getD "Untitled Event") e0.date sp
    · simp only [store_events, h0, if_true]
      rcases List.mem_cons.mp he with rfl | he'
      · obtain ⟨tail, ht⟩ := store_events_fst_append db rest sf sp u
        rw [ht]
        exact eventExists_append db tail u _ e.date sp h0
      · exact ih db e he'
    · simp only [store_events, h0, if_false]
      rcases List.mem_cons.mp he with rfl | he'
      · obtain ⟨tail, ht⟩ := store_events_fst_append
          (db ++ [⟨u, e.title.getD "Untitled Event", e.date, e.description.getD "", sf, sp⟩])
          rest sf sp u
        rw [ht]
        refine eventExists_append _ tail u _ e.date sp ?_
        simp [eventExists, List.any_append]
      · exact ih _ e he'

/-- Re-running `store_events` with the same candidates inserts nothing. -/
theorem store_events_idempotent (db : List EventRow) (evs : List CandidateEvent)
    (sf sp u : String) :
    store_events (store_events db evs sf sp u).1 evs sf sp u =
      ((store_events db evs sf sp u).1, 0) :=
  store_events_of_all_exist _ _ _ _ _ (store_events_exist_after db evs sf sp u)

/-- Unfolding of `ingest_file` on non-blank content. -/
theorem ingest_file_success (st : BackendState) (fp fn content now : String)
    (desc : DescOutput) (evres : EventsOutput)
    (hc : pyStripIsEmpty content = false) :
    ingest_file st fp fn content now desc evres =
      (⟨store_document st.vstore (docIdOf fp) (ingestMetadata fp fn content now desc evres),
        ingestNewEvents st.events fp fn evres⟩,
       ⟨true, fp, ingestDescription fn desc, ingestCategory desc,
        evres.has_events.getD false, ""⟩) := by
  rw [ingest_file, if_neg]
  simp [hc]

/-- The validated category always lands in the closed set. -/
theorem ingestCategory_mem (desc : DescOutput) :
    ingestCategory desc ∈ valid_categories := by
  simp only [ingestCategory]
  by_cases hc : desc.category.getD "other" ∈ valid_categories
  · rw [if_pos hc]
    exact hc
  · rw [if_neg hc]
    simp [valid_categories]

/-- Storing the same candidates twice adds nothing the second time. -/
theorem ingestNewEvents_idem (db : List EventRow) (fp fn : String)
    (evres : EventsOutput) :
    ingestNewEvents (ingestNewEvents db fp fn evres) fp fn evres =
      ingestNewEvents db fp fn evres := by
  by_cases hb : (evres.has_events.getD false && !(evres.events.getD []).isEmpty) = true
  · simp only [ingestNewEvents]
    rw [if_pos hb, if_pos hb, store_events_idempotent]
  · simp only [ingestNewEvents]
    rw [if_neg hb, if_neg hb]

/-- The Boolean past-event match, as a proposition. -/
theorem pastEventMatch_iff (r : EventRow) (today u : String) :
    pastEventMatch r today u = true ↔
      r.user_id = u ∧ ∃ s, r.date = some s ∧ textLt s today = true := by
  cases hd : r.date with
  | none => simp [pastEventMatch, hd]
  | some s => simp [pastEventMatch, hd]

/-! ## Claim theorems. -/

/-- C1: in the query pipeline, given a non-empty result list whose smallest
distance is the first result's distance `best` with `best ≤ 1.5`, the
retained sources are exactly the results within the `0.25` band above
`best`; the fixtures `docsA`/`docsB` realize the `[0.2, 0.3, 0.5]` and
`[0.05, 0.05, 0.05]` examples. -/
theorem query_relevance_band (docs : List QueryDoc) (ans : String) (v : Bool)
    (hne : docs ≠ [])
    (hmin : ∀ d ∈ docs, headDistance docs ≤ d.distance)
    (hceil : headDistance docs ≤ 3 / 2) :
    (query_files docs ans v).sources =
      (docs.filter fun d => d.distance ≤ headDistance docs + 1 / 4).map toSourceFile := by
  match docs with
  | [] => exact absurd rfl hne
  | d0 :: rest =>
    have hb : headDistance (d0 :: rest) = d0.distance := rfl
    rw [hb] at hceil ⊢
    show (query_files (d0 :: rest) ans v).sources = _
    simp only [query_files]
    rw [if_neg (not_lt.mpr hceil)]

/-- Witness for C1 at the spec's two distance examples: with distances
`[0.2, 0.3, 0.5]` only the first two documents are retained, with
`[0.05, 0.05, 0.05]` all three are. -/
theorem query_relevance_band_witness :
    ((query_files docsA "ans" true).sources =
       (docsA.filter fun d => d.distance ≤ headDistance docsA + 1 / 4).map toSourceFile) ∧
    (query_files docsA "ans" true).sources.map SourceFile.doc_id = ["i1", "i2"] ∧
    (query_files docsB "ans" true).sources.map SourceFile.doc_id = ["j1", "j2", "j3"] :=
  ⟨query_relevance_band docsA "ans" true (by decide)
     (by norm_num [docsA, headDistance, List.forall_mem_cons])
     (by norm_num [docsA, headDistance]),
   by norm_num [docsA, query_files, headDistance, toSourceFile, List.filter],
   by norm_num [docsB, query_files, headDistance, toSourceFile, List.filter]⟩

/-- C2 counterexample: a query whose best distance (1.6) exceeds the 1.5
ceiling does not produce the same response as the empty store — the answer
texts differ. -/
theorem query_ceiling_response_counterexample :
    query_files [⟨8/5, "a", "/a", "da", "other", "text", "i1", "", ""⟩] "ans" true ≠
      query_files [] "ans" true := by
  have h1 : query_files [⟨8/5, "a", "/a", "da", "other", "text", "i1", "", ""⟩] "ans" true =
      ⟨notRelevantAnswer, [], true⟩ := by
    norm_num [query_files]
  have h2 : query_files [] "ans" true = ⟨emptyStoreAnswer, [], true⟩ := rfl
  rw [h1, h2]
  intro hcontra
  have : notRelevantAnswer = emptyStoreAnswer := congrArg QueryResponse.answer hcontra
  exact absurd this (by decide)

/-- C2 amended: a query whose best distance exceeds the 1.5 ceiling returns
`verified = true` and empty sources like the empty-store case, but with the
shorter fixed answer; the empty-store answer is that text with
" Try ingesting some files first." appended. -/
theorem query_ceiling_amended (docs : List QueryDoc) (a1 a2 : String) (v1 v2 : Bool)
    (hne : docs ≠ []) (hceil : 3 / 2 < headDistance docs) :
    query_files docs a1 v1 = ⟨notRelevantAnswer, [], true⟩ ∧
    query_files [] a2 v2 =
      ⟨notRelevantAnswer ++ " Try ingesting some files first.", [], true⟩ := by
  constructor
  · match docs with
    | [] => exact absurd rfl hne
    | d0 :: rest =>
      have hb : (3 : ℚ) / 2 < d0.distance := hceil
      simp only [query_files]
      rw [if_pos hb]
  · show (⟨emptyStoreAnswer, [], true⟩ : QueryResponse) = _
    decide

/-- Witness for C2's amended statement at a concrete over-ceiling result
list. -/
theorem query_ceiling_amended_witness :
    query_files [⟨8/5, "a", "/a", "da", "other", "text", "i1", "", ""⟩] "x" false =
      ⟨notRelevantAnswer, [], true⟩ ∧
    query_files [] "y" true =
      ⟨notRelevantAnswer ++ " Try ingesting some files first.", [], true⟩ :=
  query_ceiling_amended [⟨8/5, "a", "/a", "da", "other", "text", "i1", "", ""⟩]
    "x" "y" false true (by decide) (by norm_num [headDistance])

/-- C8: when the extracted content strips to empty, ingestion fails with the
fixed human-readable reason and the whole backend state — vector store and
event table — is unchanged. -/
theorem ingest_blank_content_stores_nothing (st : BackendState)
    (fp fn content now : String) (desc : DescOutput) (evres : EventsOutput)
    (h : pyStripIsEmpty content = true) :
    ingest_file st fp fn content now desc evres =
      (st, ⟨false, fp, "", "", false, "Could not extract any content from file"⟩) := by
  simp [ingest_file, h]

/-- Witness for C8 on whitespace-only content. -/
theorem ingest_blank_content_stores_nothing_witness :
    pyStripIsEmpty " \t\n " = true ∧
    ingest_file ⟨[], []⟩ "/a.txt" "a.txt" " \t\n " "T0" ⟨none, none, none⟩ ⟨none, none⟩ =
      (⟨[], []⟩, ⟨false, "/a.txt", "", "", false, "Could not extract any content from file"⟩) :=
  ⟨by decide,
   ingest_blank_content_stores_nothing ⟨[], []⟩ "/a.txt" "a.txt" " \t\n " "T0"
     ⟨none, none, none⟩ ⟨none, none⟩ (by decide)⟩

/-- C9: whatever the analyzer replied (any category value or a missing one,
as after a parse-failure fallback), a successful ingestion reports and
persists a category from the closed set. -/
theorem ingest_category_closed_set (st : BackendState)
    (fp fn content now : String) (desc : DescOutput) (evres : EventsOutput)
    (h : pyStripIsEmpty content = false) :
    (ingest_file st fp fn content now desc evres).2.category ∈ valid_categories ∧
    ∀ d, get_document (ingest_file st fp fn content now desc evres).1.vstore
        (docIdOf fp) = some d → d.category ∈ valid_categories := by
  rw [ingest_file_success st fp fn content now desc evres h]
  constructor
  · exact ingestCategory_mem desc
  · intro d hd
    rw [store_document, get_document_upsert] at hd
    injection hd with hd'
    rw [← hd']
    exact ingestCategory_mem desc

/-- Witness for C9 with an out-of-domain analyzer category ("Work!!"),
coerced to "other" in both the result and the stored record. -/
theorem ingest_category_closed_set_witness :
    pyStripIsEmpty "hello" = false ∧
    (ingest_file ⟨[], []⟩ "/a.txt" "a.txt" "hello" "T0"
        ⟨some "descr", some "Work!!", some "sum"⟩ ⟨none, none⟩).2.category ∈ valid_categories :=
  ⟨by decide,
   (ingest_category_closed_set ⟨[], []⟩ "/a.txt" "a.txt" "hello" "T0"
     ⟨some "descr", some "Work!!", some "sum"⟩ ⟨none, none⟩ (by decide)).1⟩

/-- C10: a `/scan` request with an empty `extensions` list (and likewise an
absent field, which pydantic fills with the schema default) filters by the
built-in allowed set, admitting exactly the paths whose lowercased extension
is allowed — not the empty set. -/
theorem scan_empty_extensions_uses_default (file_paths : List String) :
    scan_files file_paths [] = scan_files file_paths scanRequestDefaultExtensions ∧
    (scan_files file_paths []).files = file_paths.filterMap (fun p =>
      let ext := pyLower (splitextExt p)
      if ALLOWED_EXTENSIONS.contains ext then
        some ⟨p, pyBasename p, ext, 0, ""⟩
      else none) := by
  have hlist : scanRequestDefaultExtensions = ALLOWED_EXTENSIONS := by decide
  constructor
  · simp [scan_files, hlist]
  · simp [scan_files]

/-- C3: with a well-formed store, ingesting the same `file_path` twice (with
the same extracted content and analyzer outputs) leaves exactly one record
under `docIdOf file_path` — the id is a function of the path and the store
upserts by id — and the second ingestion inserts zero additional event
rows. -/
theorem ingest_twice_idempotent (st : BackendState)
    (fp fn content now : String) (desc : DescOutput) (evres : EventsOutput)
    (hnd : keysNodup st.vstore) (hc : pyStripIsEmpty content = false) :
    keyCount (ingest_file (ingest_file st fp fn content now desc evres).1
        fp fn content now desc evres).1.vstore (docIdOf fp) = 1 ∧
    (ingest_file (ingest_file st fp fn content now desc evres).1
        fp fn content now desc evres).1.events =
      (ingest_file st fp fn content now desc evres).1.events := by
  rw [ingest_file_success st fp fn content now desc evres hc]
  rw [ingest_file_success _ fp fn content now desc evres hc]
  constructor
  · exact keyCount_upsert _ _ _ (keysNodup_upsert _ _ _ hnd)
  · exact ingestNewEvents_idem _ _ _ _

/-- Witness for C3: a concrete double ingestion (content with one event)
into an empty backend. -/
theorem ingest_twice_idempotent_witness :
    keysNodup (⟨[], []⟩ : BackendState).vstore ∧
    pyStripIsEmpty "meeting tomorrow" = false ∧
    (keyCount (ingest_file
        (ingest_file ⟨[], []⟩ "/m.txt" "m.txt" "meeting tomorrow" "T0"
          ⟨some "d", some "work", some "s"⟩
          ⟨some true, some [⟨some "Meeting", some "2099-05-01", some "x"⟩]⟩).1
        "/m.txt" "m.txt" "meeting tomorrow" "T0"
        ⟨some "d", some "work", some "s"⟩
        ⟨some true, some [⟨some "Meeting", some "2099-05-01", some "x"⟩]⟩).1.vstore
      (docIdOf "/m.txt") = 1 ∧
    (ingest_file
        (ingest_file ⟨[], []⟩ "/m.txt" "m.txt" "meeting tomorrow" "T0"
          ⟨some "d", some "work", some "s"⟩
          ⟨some true, some [⟨some "Meeting", some "2099-05-01", some "x"⟩]⟩).1
        "/m.txt" "m.txt" "meeting tomorrow" "T0"
        ⟨some "d", some "work", some "s"⟩
        ⟨some true, some [⟨some "Meeting", some "2099-05-01", some "x"⟩]⟩).1.events =
      (ingest_file ⟨[], []⟩ "/m.txt" "m.txt" "meeting tomorrow" "T0"
        ⟨some "d", some "work", some "s"⟩
        ⟨some true, some [⟨some "Meeting", some "2099-05-01", some "x"⟩]⟩).1.events) :=
  ⟨by simp [keysNodup], by decide,
   ingest_twice_idempotent ⟨[], []⟩ "/m.txt" "m.txt" "meeting tomorrow" "T0"
     ⟨some "d", some "work", some "s"⟩
     ⟨some true, some [⟨some "Meeting", some "2099-05-01", some "x"⟩]⟩
     (by simp [keysNodup]) (by decide)⟩

/-- C4: `store_events` preserves the per-user `(title, date, source_path)`
dedup invariant (`date IS ?` equating missing dates), and returns exactly
the number of rows it appended — the number actually inserted. -/
theorem store_events_dedup_invariant (db : List EventRow)
    (evs : List CandidateEvent) (sf sp u : String)
    (h : NoDupEventTriples db) :
    NoDupEventTriples (store_events db evs sf sp u).1 ∧
    (store_events db evs sf sp u).1.length = db.length + (store_events db evs sf sp u).2 := by
  induction evs generalizing db with
  | nil => exact ⟨h, by simp [store_events]⟩
  | cons e rest ih =>
    by_cases h0 : eventExists db u (e.title.getD "Untitled Event") e.date sp = true
    · simp only [store_events]
      rw [if_pos h0]
      exact ih db h
    · have hnew : NoDupEventTriples
          (db ++ [⟨u, e.title.getD "Untitled Event", e.date, e.description.getD "", sf, sp⟩]) := by
        simp only [NoDupEventTriples, List.pairwise_append]
        refine ⟨h, List.pairwise_singleton _ _, ?_⟩
        intro r hr r' hr'
        simp only [List.mem_singleton] at hr'
        subst hr'
        intro huser htriple
        apply h0
        simp only [eventExists, List.any_eq_true]
        refine ⟨r, hr, ?_⟩
        simp only [huser, htriple.1, htriple.2.1, htriple.2.2]
        simp
      obtain ⟨ih1, ih2⟩ := ih _ hnew
      simp only [store_events]
      rw [if_neg h0]
      refine ⟨ih1, ?_⟩
      rw [ih2]
      simp only [List.length_append, List.length_singleton]
      omega

/-- Witness for C4: one pre-existing row with a `NULL` date; the first
candidate (same title, `NULL` date, same path) is skipped, the second is
inserted; the call reports 1 inserted though 2 were offered. -/
theorem store_events_dedup_invariant_witness :
    NoDupEventTriples
      ((store_events [⟨"default", "Pay rent", none, "", "f", "/f"⟩]
          [⟨some "Pay rent", none, some "x"⟩, ⟨some "Standup", some "2099-01-01", none⟩]
          "f" "/f" "default").1) ∧
    (store_events [⟨"default", "Pay rent", none, "", "f", "/f"⟩]
        [⟨some "Pay rent", none, some "x"⟩, ⟨some "Standup", some "2099-01-01", none⟩]
        "f" "/f" "default").2 = 1 :=
  ⟨(store_events_dedup_invariant [⟨"default", "Pay rent", none, "", "f", "/f"⟩]
      [⟨some "Pay rent", none, some "x"⟩, ⟨some "Standup", some "2099-01-01", none⟩]
      "f" "/f" "default" (by simp [NoDupEventTriples])).1,
   by decide⟩

set_option maxRecDepth 1000000 in
/-- C5 counterexample: a state reached by ingesting a file with an empty
`file_path` (which the API accepts). Deleting that document succeeds, yet
the default user's event whose `source_path` equals the document's
`file_path` (`""`) survives, because `delete_memory` skips the cascade for
a falsy path. -/
theorem delete_memory_empty_path_counterexample :
    (get_document c5state.vstore (docIdOf "")).map StoredDoc.file_path = some "" ∧
    (delete_memory c5state (docIdOf "")).2.success = true ∧
    (delete_memory c5state (docIdOf "")).1.events =
      [⟨"default", "Standup", some "2099-01-01", "", "notes.txt", ""⟩] := by
  refine ⟨?_, ?_, ?_⟩ <;> decide

/-- C5 amended: a missing id yields a soft failure with the state untouched;
an existing id is removed and reported deleted, and the default user's
events with matching `source_path` are cascaded — but only when the
document's `file_path` is non-empty; with an empty `file_path` the event
table is left as is. -/
theorem delete_memory_cascade_amended (st : BackendState) (doc_id : String) :
    (get_document st.vstore doc_id = none →
       delete_memory st doc_id = (st, ⟨false, "Document not found"⟩)) ∧
    (∀ doc, get_document st.vstore doc_id = some doc →
       (delete_memory st doc_id).1.vstore = st.vstore.filter (fun p => !(p.1 == doc_id)) ∧
       (delete_memory st doc_id).2 = ⟨true, "Deleted " ++ doc.file_name⟩ ∧
       (doc.file_path ≠ "" →
         (delete_memory st doc_id).1.events =
           st.events.filter fun r =>
             !(r.source_path == doc.file_path && r.user_id == DEFAULT_USER_ID)) ∧
       (doc.file_path = "" → (delete_memory st doc_id).1.events = st.events)) := by
  constructor
  · intro h0
    simp [delete_memory, h0]
  · intro doc hdoc
    have hred : delete_memory st doc_id =
        (⟨st.vstore.filter fun p => !(p.1 == doc_id),
          if doc.file_path ≠ "" then
            (delete_events_by_source st.events doc.file_path DEFAULT_USER_ID).1
          else st.events⟩,
         ⟨true, "Deleted " ++ doc.file_name⟩) := by
      simp [delete_memory, hdoc, delete_document]
    rw [hred]
    refine ⟨rfl, rfl, ?_, ?_⟩
    · intro hfp
      rw [if_pos hfp]
      simp [delete_events_by_source]
    · intro hfp
      rw [if_neg (by simp [hfp])]

/-- Witness for C5's amended statement: deleting the stored document at
`/f` removes it, cascades the default user's `/f` event, keeps the other
user's event, and a bogus id fails softly. -/
theorem delete_memory_cascade_amended_witness :
    (delete_memory stW "d1").1.vstore = [] ∧
    (delete_memory stW "d1").2 = ⟨true, "Deleted f.txt"⟩ ∧
    (delete_memory stW "d1").1.events = [rowOther] ∧
    delete_memory stW "zzz" = (stW, ⟨false, "Document not found"⟩) :=
  ⟨(((delete_memory_cascade_amended stW "d1").2 docW (by decide)).1).trans (by decide),
   (((delete_memory_cascade_amended stW "d1").2 docW (by decide)).2.1).trans (by decide),
   ((((delete_memory_cascade_amended stW "d1").2 docW (by decide)).2.2.1) (by decide)).trans
     (by decide),
   (delete_memory_cascade_amended stW "zzz").1 (by decide)⟩

/-- C6 counterexample: an event whose date text is `""` — which
`_parse_event_datetime` cannot parse — is nevertheless removed by
`delete_past_events`, because the SQL comparison is lexicographic on the
raw text, not on parsed dates. -/
theorem delete_past_events_unparseable_counterexample :
    parse_event_datetime "" = none ∧
    delete_past_events [⟨"default", "Budget", some "", "todo", "b.txt", "/b.txt"⟩]
      "2026-10-12" "default" = ([], 1) := by
  refine ⟨?_, ?_⟩ <;> decide

/-- C6 amended: `delete_past_events` removes exactly the given user's rows
whose non-`NULL` date *text* is lexicographically below today's ISO date
(chronological order only for uniformly ISO-formatted dates), leaves
undated rows untouched, and returns the number removed. -/
theorem delete_past_events_lexicographic (db : List EventRow) (today u : String) :
    (∀ r : EventRow, r ∈ (delete_past_events db today u).1 ↔
       r ∈ db ∧ ¬(r.user_id = u ∧ ∃ s, r.date = some s ∧ textLt s today = true)) ∧
    (∀ r ∈ db, r.date = none → r ∈ (delete_past_events db today u).1) ∧
    (delete_past_events db today u).2 = db.length - (delete_past_events db today u).1.length := by
  have hmem : ∀ r : EventRow, r ∈ (delete_past_events db today u).1 ↔
      r ∈ db ∧ ¬(r.user_id = u ∧ ∃ s, r.date = some s ∧ textLt s today = true) := by
    intro r
    simp only [delete_past_events, List.mem_filter, Bool.not_eq_true']
    rw [← pastEventMatch_iff r today u]
    simp
  refine ⟨hmem, ?_, rfl⟩
  intro r hr hdate
  refine (hmem r).mpr ⟨hr, ?_⟩
  rintro ⟨-, s, hs, -⟩
  rw [hdate] at hs
  cases hs

/-- Witness for C6's amended statement: the undated row survives, the
future row survives via the membership characterization, and exactly one
(past) row is removed. -/
theorem delete_past_events_lexicographic_witness :
    undatedRow ∈ (delete_past_events dbW "2026-10-12" "default").1 ∧
    futureRow ∈ (delete_past_events dbW "2026-10-12" "default").1 ∧
    (delete_past_events dbW "2026-10-12" "default").2 = 1 :=
  ⟨(delete_past_events_lexicographic dbW "2026-10-12" "default").2.1 undatedRow
     (by decide) (by decide),
   ((delete_past_events_lexicographic dbW "2026-10-12" "default").1 futureRow).mpr
     ⟨by decide, by
       rintro ⟨-, s, hs, hlt⟩
       rw [show futureRow.date = some "2099-01-01" from rfl] at hs
       injection hs with hs'
       rw [← hs'] at hlt
       exact absurd hlt (by decide)⟩,
   by decide⟩

/-- Norm of the unit fixture `[3/5, 4/5]`. -/
theorem npNorm_u1 : npNorm [(3:ℚ)/5, 4/5] = 1 := by
  rw [npNorm]
  have h : ((dotQ [(3:ℚ)/5, 4/5] [(3:ℚ)/5, 4/5] : ℚ) : ℝ) = 1 := by
    norm_num [dotQ]
  rw [h, Real.sqrt_one]

/-- Norm of the unit fixture `[4/5, 3/5]`. -/
theorem npNorm_u2 : npNorm [(4:ℚ)/5, 3/5] = 1 := by
  rw [npNorm]
  have h : ((dotQ [(4:ℚ)/5, 3/5] [(4:ℚ)/5, 3/5] : ℚ) : ℝ) = 1 := by
    norm_num [dotQ]
  rw [h, Real.sqrt_one]

/-- Norm of the small-magnitude fixture `[3e-5, 4e-5]`. -/
theorem npNorm_s1 : npNorm [(3:ℚ)/100000, 4/100000] = 1/20000 := by
  rw [npNorm]
  have h : ((dotQ [(3:ℚ)/100000, 4/100000] [(3:ℚ)/100000, 4/100000] : ℚ) : ℝ) =
      (1/20000 : ℝ)^2 := by
    norm_num [dotQ]
  rw [h, Real.sqrt_sq (by norm_num)]

/-- Norm of the small-magnitude fixture `[4e-5, 3e-5]`. -/
theorem npNorm_s2 : npNorm [(4:ℚ)/100000, 3/100000] = 1/20000 := by
  rw [npNorm]
  have h : ((dotQ [(4:ℚ)/100000, 3/100000] [(4:ℚ)/100000, 3/100000] : ℚ) : ℝ) =
      (1/20000 : ℝ)^2 := by
    norm_num [dotQ]
  rw [h, Real.sqrt_sq (by norm_num)]

/-- C7 counterexample: two embeddings of magnitude `5e-5` with true cosine
similarity `0.96 > 0.7` produce no "similar" edge, because the code's
`1e-9` damping term dominates their tiny norm product (the computed score
is `24/35 ≈ 0.686`). -/
theorem similar_edge_cosine_counterexample :
    7/10 < cosine_similarity [(3:ℚ)/100000, 4/100000] [(4:ℚ)/100000, 3/100000] ∧
    ¬ emits_similar_edge [(3:ℚ)/100000, 4/100000] [(4:ℚ)/100000, 3/100000] := by
  have hdot : ((dotQ [(3:ℚ)/100000, 4/100000] [(4:ℚ)/100000, 3/100000] : ℚ) : ℝ) =
      24/10000000000 := by
    norm_num [dotQ]
  constructor
  · rw [cosine_similarity, hdot, npNorm_s1, npNorm_s2]
    norm_num
  · rw [emits_similar_edge, sim_score, hdot, npNorm_s1, npNorm_s2]
    norm_num

/-- C7 amended: the similar-edge condition is exactly
`dot > 0.7·(‖a‖·‖b‖ + 1e-9)`, not a condition on true cosine similarity;
for norm products at least 1 it sits within relative `1e-9` of the cosine
threshold (edge → cosine > 0.7, and cosine > 0.7·(1+1e-9) → edge); on
unit-norm embeddings with cosine 0.96 an edge is emitted and its
`round(sim, 3)` weight is 0.96. -/
theorem similar_edge_threshold_amended (a b : List ℚ) :
    (emits_similar_edge a b ↔
       7/10 * (npNorm a * npNorm b + 1/10^9) < ((dotQ a b : ℚ) : ℝ)) ∧
    (1 ≤ npNorm a * npNorm b →
       (emits_similar_edge a b → 7/10 < cosine_similarity a b) ∧
       (7/10 * (1 + 1/10^9) < cosine_similarity a b → emits_similar_edge a b)) ∧
    emits_similar_edge [(3:ℚ)/5, 4/5] [(4:ℚ)/5, 3/5] ∧
    similar_edge_weight [(3:ℚ)/5, 4/5] [(4:ℚ)/5, 3/5] = 24/25 := by
  have hN0 : (0:ℝ) ≤ npNorm a * npNorm b :=
    mul_nonneg (Real.sqrt_nonneg _) (Real.sqrt_nonneg _)
  have hpos : (0:ℝ) < npNorm a * npNorm b + 1/10^9 := by
    have : (0:ℝ) < 1/10^9 := by norm_num
    linarith
  have hiff : emits_similar_edge a b ↔
      7/10 * (npNorm a * npNorm b + 1/10^9) < ((dotQ a b : ℚ) : ℝ) := by
    rw [emits_similar_edge, sim_score, lt_div_iff₀ hpos]
  have hdotU : ((dotQ [(3:ℚ)/5, 4/5] [(4:ℚ)/5, 3/5] : ℚ) : ℝ) = 24/25 := by
    norm_num [dotQ]
  refine ⟨hiff, ?_, ?_, ?_⟩
  · intro hge
    have hNpos : (0:ℝ) < npNorm a * npNorm b := lt_of_lt_of_le one_pos hge
    constructor
    · intro he
      have hd := hiff.mp he
      rw [cosine_similarity, lt_div_iff₀ hNpos]
      nlinarith
    · intro hcos
      rw [cosine_similarity, lt_div_iff₀ hNpos] at hcos
      refine hiff.mpr ?_
      nlinarith
  · rw [emits_similar_edge, sim_score, hdotU, npNorm_u1, npNorm_u2]
    norm_num
  · have hs : sim_score [(3:ℚ)/5, 4/5] [(4:ℚ)/5, 3/5] = 960000000/1000000001 := by
      rw [sim_score, hdotU, npNorm_u1, npNorm_u2]
      norm_num
    rw [similar_edge_weight, hs]
    have hx : (960000000/1000000001 : ℝ) * 1000 = 960000000000/1000000001 := by
      norm_num
    rw [hx]
    have hfl : ⌊(960000000000/1000000001 : ℝ)⌋ = 959 := by
      rw [Int.floor_eq_iff]
      constructor <;> norm_num
    have hfr : Int.fract (960000000000/1000000001 : ℝ) = 999999041/1000000001 := by
      rw [Int.fract, hfl]
      norm_num
    have h1 : ¬ (Int.fract (960000000000/1000000001 : ℝ) < 1/2) := by
      rw [hfr]
      norm_num
    have h2 : (1:ℝ)/2 < Int.fract (960000000000/1000000001 : ℝ) := by
      rw [hfr]
      norm_num
    have hce : ⌈(960000000000/1000000001 : ℝ)⌉ = 960 := by
      rw [Int.ceil_eq_iff]
      constructor <;> norm_num
    rw [pyRoundInt, if_neg h1, if_pos h2, hce]
    norm_num

/-- Witness for C7's amended statement: the unit-norm pair's true cosine
similarity exceeds 0.7, derived by applying the amended theorem's
norm-product implication to its own emitted edge. -/
theorem similar_edge_threshold_amended_witness :
    7/10 < cosine_similarity [(3:ℚ)/5, 4/5] [(4:ℚ)/5, 3/5] :=
  (((similar_edge_threshold_amended [(3:ℚ)/5, 4/5] [(4:ℚ)/5, 3/5]).2.1
      (by rw [npNorm_u1, npNorm_u2]; norm_num)).1)
    ((similar_edge_threshold_amended [(3:ℚ)/5, 4/5] [(4:ℚ)/5, 3/5]).2.2.1)

end MindVault
